import Mathlib

/-!
Shallow embedding of the ndc-client request-dispatch core
(src/ndc-client/src/apis/default_api.rs).

The embedding covers: URL joining (append_path), trace-context injection
(inject_trace_context), the error observer (with_traced_errors and
log_in_current_span), the shared response-classification branch, and the
five operations (capabilities_get, schema_get, query_post, mutation_post,
explain_post), which differ only in HTTP method, path suffix and
payload/response types.

External collaborators (reqwest, the url crate, the OpenTelemetry
propagator, serde) are modelled by their documented behaviour at the
granularity the source uses them:
  - a reqwest header map is a list of name/value pairs; RequestBuilder
    methods header and headers are embedded below;
  - a hierarchical URL is its list of path segments (the part after the
    leading slash, split at each slash); URLs that cannot be a base carry
    a flag and no segments;
  - the ambient trace context is passed in explicitly as the list of
    header pairs the propagator would serialise (empty when no context is
    active);
  - JSON decoding is a function into Option (none is a serde failure);
  - the transport is passed in as the predetermined outcome of
    client.execute and of Response.json, so that a run of an operation is
    a pure function of its inputs.
Each run also returns an Effects record: how many times the transport was
invoked, how many times the error observer fired, and the headers of the
built outgoing request (none when no request was built).
-/

deriving instance DecidableEq for Except

namespace NdcClient

/-- Header mapping of an outgoing request: an ordered list of name/value
pairs standing in for a reqwest HeaderMap (names already lowercase, as
reqwest normalises them). -/
abbrev Headers := List (String × String)

/-- Embeds reqwest RequestBuilder.header, which appends the pair to the
headers already set without removing existing entries of the same name. -/
def header (builder : Headers) (k v : String) : Headers :=
  builder ++ [(k, v)]

/-- Embeds reqwest RequestBuilder.headers (the source comment at each call
site: the headers will be merged in to any already set): for every name
occurring in the new map, existing entries of that name are replaced; all
pairs of the new map are added. -/
def replace_headers (builder : Headers) (new : Headers) : Headers :=
  builder.filter (fun p => !(new.any (fun q => q.1 == p.1))) ++ new

/-- Embeds the header effect of reqwest RequestBuilder.json, which sets
content-type to application/json unless a content-type header is already
present. (The serialised body itself does not influence any outcome
modelled here.) -/
def set_json_content_type (builder : Headers) : Headers :=
  if builder.any (fun p => p.1 == "content-type") then builder
  else builder ++ [("content-type", "application/json")]

/-- Embeds inject_trace_context (default_api.rs lines 24 to 35): the
propagator serialises the ambient context into trace_headers, and each
pair is added to the builder with RequestBuilder.header. The propagator
output is passed in as traceHeaders; it is the empty list when no trace
context is active. -/
def inject_trace_context (traceHeaders : Headers) (builder : Headers) : Headers :=
  traceHeaders.foldl (fun b kv => header b kv.1 kv.2) builder

/-- Embeds the ConnectorURLError enum (payload of URLParseError dropped). -/
inductive ConnectorURLError where
  | URLCannotBeABase : ConnectorURLError
  | URLParseError : ConnectorURLError
deriving DecidableEq

/-- A parsed URL at the granularity append_path inspects it: whether the
URL cannot be a base (opaque, no path segments), and otherwise its path
segments: the path after the leading slash, split at each slash. The url
crate guarantees the segment list of a hierarchical URL is nonempty (the
root path is the single segment ""). Scheme, host, query and fragment
never influence append_path and are omitted. -/
structure Url where
  cannotBeABase : Bool
  segments : List String
deriving DecidableEq

/-- Embeds Url::path_segments: none when the URL cannot be a base,
otherwise the segment list. -/
def path_segments (u : Url) : Option (List String) :=
  if u.cannotBeABase then none else some u.segments

/-- Splits a character list at each slash, accumulating the current
segment in reverse. Structural helper for splitSlash. -/
def splitSlashAux : List Char → List Char → List String
  | [], acc => [String.mk acc.reverse]
  | c :: rest, acc =>
    if c = '/' then String.mk acc.reverse :: splitSlashAux rest []
    else splitSlashAux rest (c :: acc)

/-- The slash-separated segments of a relative path string (structural
recursion over the characters, so the kernel can evaluate it). -/
def splitSlash (s : String) : List String :=
  splitSlashAux s.data []

/-- Embeds Url::join for the references the dispatcher passes it: a
relative-path reference (no scheme, no authority, no leading slash, no
dot segments, no query or fragment), per RFC 3986 merge: the last segment
of the base path is replaced by the reference's segments. Joining against
a URL that cannot be a base fails with a parse error. -/
def url_join (u : Url) (path : String) : Except ConnectorURLError Url :=
  if u.cannotBeABase then .error .URLParseError
  else .ok { cannotBeABase := false, segments := u.segments.dropLast ++ splitSlash path }

/-- Embeds append_path (default_api.rs lines 37 to 52): if the last path
segment of the base is nonempty (no trailing slash), push an empty
segment to force a trailing slash, then join the relative path; otherwise
join directly. The unwrap in the source relies on the url crate invariant
that a Some segment iterator is nonempty; getLastD mirrors it ([] never
occurs for a hierarchical URL). -/
def append_path (url : Url) (path : String) : Except ConnectorURLError Url :=
  if (match path_segments url with
      | none => false
      | some s => s.getLastD "" != "") then
    if url.cannotBeABase then .error .URLCannotBeABase
    else url_join { url with segments := url.segments ++ [""] } path
  else
    url_join url path

/-- The segments the url crate assigns to a base URL with the given path
string (the part after the host, with its leading slash; an absent path
parses as the root path "/"). -/
def parse_path (p : String) : List String :=
  splitSlash ((if p = "" then "/" else p).drop 1)

/-- Embeds StatusCode::is_client_error: status in 400 to 499. -/
def is_client_error (s : Nat) : Bool :=
  decide (400 ≤ s ∧ s ≤ 499)

/-- Embeds StatusCode::is_server_error: status in 500 to 599. -/
def is_server_error (s : Nat) : Bool :=
  decide (500 ≤ s ∧ s ≤ 599)

/-- Embeds the Error enum of the apis module as used by default_api.rs:
Reqwest covers transport and request-build failures, Serde covers JSON
decode failures (payload dropped), and ConnectorError carries the status
with the decoded error envelope of type ε. -/
inductive Error (ε : Type) where
  | Reqwest : Error ε
  | Serde : Error ε
  | ConnectorURLError (e : ConnectorURLError) : Error ε
  | ConnectorError (status : Nat) (error_response : ε) : Error ε
deriving DecidableEq

/-- Embeds the response-classification branch shared by the five
operations (default_api.rs lines 89 to 99, 136 to 146, 183 to 193, 232 to
242, 278 to 288): when the status is neither a client error nor a server
error, decode the body into the success type (a failure is a serde
error); otherwise decode the body into the error envelope (a failure is a
serde error) and return a ConnectorError carrying status and envelope.
Decoders are passed in because only the payload types differ per
operation; the body type β stands for an already-JSON-parsed value. -/
def classify_response {α ε β : Type} (decode_success : β → Option α)
    (decode_error : β → Option ε) (status : Nat) (body : β) :
    Except (Error ε) α :=
  if !(is_client_error status) && !(is_server_error status) then
    match decode_success body with
    | some v => .ok v
    | none => .error .Serde
  else
    match decode_error body with
    | some e => .error (.ConnectorError status e)
    | none => .error .Serde

/-- A delivered HTTP response at the granularity the dispatcher reads it:
the status code, and the predetermined outcome of Response.json (error
models a body that is not valid JSON). -/
structure Response (β : Type) where
  status : Nat
  jsonResult : Except Unit β

/-- Observable effects of one run of an operation: how many times
client.execute was invoked, how many times log_in_current_span fired, and
the headers of the built outgoing request (none when the run failed
before a request was built). -/
structure Effects where
  executeCount : Nat
  observerCount : Nat
  requestHeaders : Option Headers
deriving DecidableEq

/-- Embeds log_in_current_span (default_api.rs lines 328 to 334), which
sets the error status on the active span: modelled as incrementing the
observer-invocation counter threaded through a run. -/
def log_in_current_span (observerCount : Nat) : Nat :=
  observerCount + 1

/-- Embeds Tracing::with_traced_errors on Result (default_api.rs lines
303 to 313): an Ok is returned as is; an Err is first logged to the
current span, then returned as is. The counter models the span effect. -/
def with_traced_errors {A E : Type} (r : Except E A) (observerCount : Nat) :
    Except E A × Nat :=
  match r with
  | .ok x => (.ok x, observerCount)
  | .error e => (.error e, log_in_current_span observerCount)

/-- Embeds the configuration fields default_api.rs reads: the base URL,
the optional user agent, and the caller's static headers. The client
handle is represented by the transport outcomes passed into each run. -/
structure Configuration where
  base_path : Url
  user_agent : Option String
  headers : Headers

/-- Embeds the shared body of the GET operations capabilities_get
(default_api.rs lines 60 to 102) and schema_get (lines 249 to 291):
resolve the URL with append_path (a failure short-circuits before any
request exists), build the headers in source order (trace context first,
then user agent, then static headers), build the request (buildResult is
the predetermined outcome of RequestBuilder.build, not traced), execute
(traced on failure), read the JSON body (traced on failure), and classify
the response. -/
def dispatch_get {α ε β : Type} (cfg : Configuration) (traceHeaders : Headers)
    (buildResult : Except Unit Unit) (executeResult : Except Unit (Response β))
    (decode_success : β → Option α) (decode_error : β → Option ε)
    (pathSuffix : String) : Except (Error ε) α × Effects :=
  match append_path cfg.base_path pathSuffix with
  | .error e => (.error (.ConnectorURLError e), ⟨0, 0, none⟩)
  | .ok _uri =>
    let b1 := inject_trace_context traceHeaders []
    let b2 := match cfg.user_agent with
      | some ua => header b1 "user-agent" ua
      | none => b1
    let b3 := replace_headers b2 cfg.headers
    match buildResult with
    | .error _ => (.error .Reqwest, ⟨0, 0, none⟩)
    | .ok _ =>
      match with_traced_errors executeResult 0 with
      | (.error _, n) => (.error .Reqwest, ⟨1, n, some b3⟩)
      | (.ok resp, n) =>
        match with_traced_errors resp.jsonResult n with
        | (.error _, m) => (.error .Serde, ⟨1, m, some b3⟩)
        | (.ok body, m) =>
          (classify_response decode_success decode_error resp.status body,
           ⟨1, m, some b3⟩)

/-- Embeds the shared body of the POST operations query_post
(default_api.rs lines 198 to 247), mutation_post (lines 151 to 196) and
explain_post (lines 104 to 149): the same shape as dispatch_get, except
that the headers are built in the POST source order: user agent first,
then static headers, then the json call sets the body (and content-type),
and the trace context is injected last. -/
def dispatch_post {α ε β : Type} (cfg : Configuration) (traceHeaders : Headers)
    (buildResult : Except Unit Unit) (executeResult : Except Unit (Response β))
    (decode_success : β → Option α) (decode_error : β → Option ε)
    (pathSuffix : String) : Except (Error ε) α × Effects :=
  match append_path cfg.base_path pathSuffix with
  | .error e => (.error (.ConnectorURLError e), ⟨0, 0, none⟩)
  | .ok _uri =>
    let b1 := match cfg.user_agent with
      | some ua => header [] "user-agent" ua
      | none => ([] : Headers)
    let b2 := replace_headers b1 cfg.headers
    let b3 := set_json_content_type b2
    let b4 := inject_trace_context traceHeaders b3
    match buildResult with
    | .error _ => (.error .Reqwest, ⟨0, 0, none⟩)
    | .ok _ =>
      match with_traced_errors executeResult 0 with
      | (.error _, n) => (.error .Reqwest, ⟨1, n, some b4⟩)
      | (.ok resp, n) =>
        match with_traced_errors resp.jsonResult n with
        | (.error _, m) => (.error .Serde, ⟨1, m, some b4⟩)
        | (.ok body, m) =>
          (classify_response decode_success decode_error resp.status body,
           ⟨1, m, some b4⟩)

/-- Embeds capabilities_get (default_api.rs lines 60 to 102). -/
def capabilities_get {α ε β : Type} (cfg : Configuration) (traceHeaders : Headers)
    (buildResult : Except Unit Unit) (executeResult : Except Unit (Response β))
    (decode_success : β → Option α) (decode_error : β → Option ε) :
    Except (Error ε) α × Effects :=
  dispatch_get cfg traceHeaders buildResult executeResult decode_success decode_error
    "capabilities"

/-- Embeds schema_get (default_api.rs lines 249 to 291). -/
def schema_get {α ε β : Type} (cfg : Configuration) (traceHeaders : Headers)
    (buildResult : Except Unit Unit) (executeResult : Except Unit (Response β))
    (decode_success : β → Option α) (decode_error : β → Option ε) :
    Except (Error ε) α × Effects :=
  dispatch_get cfg traceHeaders buildResult executeResult decode_success decode_error
    "schema"

/-- Embeds query_post (default_api.rs lines 198 to 247). -/
def query_post {α ε β : Type} (cfg : Configuration) (traceHeaders : Headers)
    (buildResult : Except Unit Unit) (executeResult : Except Unit (Response β))
    (decode_success : β → Option α) (decode_error : β → Option ε) :
    Except (Error ε) α × Effects :=
  dispatch_post cfg traceHeaders buildResult executeResult decode_success decode_error
    "query"

/-- Embeds mutation_post (default_api.rs lines 151 to 196). -/
def mutation_post {α ε β : Type} (cfg : Configuration) (traceHeaders : Headers)
    (buildResult : Except Unit Unit) (executeResult : Except Unit (Response β))
    (decode_success : β → Option α) (decode_error : β → Option ε) :
    Except (Error ε) α × Effects :=
  dispatch_post cfg traceHeaders buildResult executeResult decode_success decode_error
    "mutation"

/-- Embeds explain_post (default_api.rs lines 104 to 149). -/
def explain_post {α ε β : Type} (cfg : Configuration) (traceHeaders : Headers)
    (buildResult : Except Unit Unit) (executeResult : Except Unit (Response β))
    (decode_success : β → Option α) (decode_error : β → Option ε) :
    Except (Error ε) α × Effects :=
  dispatch_post cfg traceHeaders buildResult executeResult decode_success decode_error
    "explain"

/-- Follows the words of the specification for the header-merge order it
claims for every operation: trace-context headers first, then the user
agent if configured, then the caller's static headers last. Stated as its
own definition to compare against the operations. -/
def claimed_merge_order (traceHeaders : Headers) (user_agent : Option String)
    (staticHeaders : Headers) : Headers :=
  replace_headers
    (match user_agent with
     | some ua => header (inject_trace_context traceHeaders []) "user-agent" ua
     | none => inject_trace_context traceHeaders [])
    staticHeaders

/-- The header-merge order the POST operations actually use (the amended
statement): user agent first, then static headers, then the content-type
set by the json call, and the trace-context headers appended last. -/
def post_merge_order (traceHeaders : Headers) (user_agent : Option String)
    (staticHeaders : Headers) : Headers :=
  inject_trace_context traceHeaders
    (set_json_content_type
      (replace_headers
        (match user_agent with
         | some ua => header [] "user-agent" ua
         | none => ([] : Headers))
        staticHeaders))

/-- The number of error-observer invocations a run actually performs (the
amended statement): one for a transport-execute failure, one for a JSON
body-read failure, and zero in every other case, including an
endpoint-resolution failure, a request-build failure, a body-schema
mismatch and a connector error. -/
def expected_observer_count {β : Type} (u : Url) (pathSuffix : String)
    (buildResult : Except Unit Unit) (executeResult : Except Unit (Response β)) : Nat :=
  match append_path u pathSuffix with
  | .error _ => 0
  | .ok _ =>
    match buildResult with
    | .error _ => 0
    | .ok _ =>
      match executeResult with
      | .error _ => 1
      | .ok resp =>
        match resp.jsonResult with
        | .error _ => 1
        | .ok _ => 0

/-! Helper lemmas shared by the claim theorems. -/

/-- Injecting trace headers appends exactly the propagator's pairs, in
order, after the headers already on the builder. -/
theorem inject_eq_append (t b : Headers) : inject_trace_context t b = b ++ t := by
  induction t generalizing b with
  | nil => simp [inject_trace_context]
  | cons kv rest ih =>
    have h := ih (header b kv.1 kv.2)
    simp only [inject_trace_context, List.foldl_cons] at h ⊢
    rw [h]
    simp [header, List.append_assoc]

/-- Every pair of the new map survives a replace_headers merge. -/
theorem mem_replace_headers_new (dst new : Headers) (p : String × String)
    (h : p ∈ new) : p ∈ replace_headers dst new := by
  simp only [replace_headers, List.mem_append]
  exact Or.inr h

/-- A name present on the builder is still present after a
replace_headers merge (with its old value when the new map does not use
the name, with the new map's value otherwise). -/
theorem exists_key_replace_headers (dst new : Headers) (k v : String)
    (h : (k, v) ∈ dst) : ∃ w, (k, w) ∈ replace_headers dst new := by
  by_cases ha : new.any (fun q => q.1 == k) = true
  · obtain ⟨q, hq, hqk⟩ := List.any_eq_true.mp ha
    have hk : q.1 = k := by simpa using hqk
    refine ⟨q.2, mem_replace_headers_new dst new (k, q.2) ?_⟩
    rw [← hk]
    simpa using hq
  · refine ⟨v, ?_⟩
    simp only [replace_headers, List.mem_append]
    left
    refine List.mem_filter.mpr ⟨h, ?_⟩
    have hx : new.any (fun q => q.1 == k) = false := by
      cases hxx : new.any (fun q => q.1 == k)
      · rfl
      · exact absurd hxx ha
    simp [hx]

/-- Every pair on the builder survives the content-type step of the json
call. -/
theorem mem_set_json_content_type (b : Headers) (p : String × String)
    (h : p ∈ b) : p ∈ set_json_content_type b := by
  unfold set_json_content_type
  split
  · exact h
  · exact List.mem_append_left _ h

/-- A base URL that can be a base always joins successfully. -/
theorem append_path_ok_of_base (u : Url) (p : String)
    (h : u.cannotBeABase = false) : ∃ v, append_path u p = .ok v := by
  unfold append_path url_join path_segments
  simp [h]
  split <;> exact ⟨_, rfl⟩

/-- Characterises the ConnectorError outcome of the shared classifier:
it carries the response status, the status is in the 400 to 599 range,
and the envelope is exactly what the error decoder produced. -/
theorem classify_response_connector {α ε β : Type} (dS : β → Option α)
    (dE : β → Option ε) (s : Nat) (b : β) (st : Nat) (e : ε)
    (h : classify_response dS dE s b = .error (.ConnectorError st e)) :
    st = s ∧ (400 ≤ s ∧ s ≤ 599) ∧ dE b = some e := by
  unfold classify_response at h
  by_cases hc : (!(is_client_error s) && !(is_server_error s)) = true
  · rw [if_pos hc] at h
    cases hdS : dS b <;> rw [hdS] at h <;> simp at h
  · rw [if_neg hc] at h
    have hrange : 400 ≤ s ∧ s ≤ 599 := by
      simp [is_client_error, is_server_error] at hc
      omega
    cases hdE : dE b <;> rw [hdE] at h
    · simp at h
    · simp only [Except.error.injEq, Error.ConnectorError.injEq] at h
      exact ⟨h.1.symm, hrange, by rw [h.2]⟩

/-- A GET dispatch whose URL resolution fails returns the URL error with
no transport invocation, no observer invocation and no built request. -/
theorem dispatch_get_url_error {α ε β : Type} (cfg : Configuration) (trace : Headers)
    (build : Except Unit Unit) (exec : Except Unit (Response β))
    (dS : β → Option α) (dE : β → Option ε) (suffix : String) (e : ConnectorURLError)
    (h : append_path cfg.base_path suffix = .error e) :
    dispatch_get cfg trace build exec dS dE suffix
      = (.error (.ConnectorURLError e), ⟨0, 0, none⟩) := by
  unfold dispatch_get
  rw [h]

/-- A POST dispatch whose URL resolution fails returns the URL error with
no transport invocation, no observer invocation and no built request. -/
theorem dispatch_post_url_error {α ε β : Type} (cfg : Configuration) (trace : Headers)
    (build : Except Unit Unit) (exec : Except Unit (Response β))
    (dS : β → Option α) (dE : β → Option ε) (suffix : String) (e : ConnectorURLError)
    (h : append_path cfg.base_path suffix = .error e) :
    dispatch_post cfg trace build exec dS dE suffix
      = (.error (.ConnectorURLError e), ⟨0, 0, none⟩) := by
  unfold dispatch_post
  rw [h]

/-- The observer count of a GET dispatch matches the amended
characterisation for every input. -/
theorem dispatch_get_observer {α ε β : Type} (cfg : Configuration) (trace : Headers)
    (build : Except Unit Unit) (exec : Except Unit (Response β))
    (dS : β → Option α) (dE : β → Option ε) (suffix : String) :
    (dispatch_get cfg trace build exec dS dE suffix).snd.observerCount
      = expected_observer_count cfg.base_path suffix build exec := by
  unfold dispatch_get expected_observer_count
  rcases ha : append_path cfg.base_path suffix with e | u
  · simp only [ha]
  · simp only [ha]
    rcases build with b | b
    · rfl
    · rcases exec with e2 | resp
      · rfl
      · rcases resp with ⟨st, jr⟩
        rcases jr with e3 | body <;> rfl

/-- The observer count of a POST dispatch matches the amended
characterisation for every input. -/
theorem dispatch_post_observer {α ε β : Type} (cfg : Configuration) (trace : Headers)
    (build : Except Unit Unit) (exec : Except Unit (Response β))
    (dS : β → Option α) (dE : β → Option ε) (suffix : String) :
    (dispatch_post cfg trace build exec dS dE suffix).snd.observerCount
      = expected_observer_count cfg.base_path suffix build exec := by
  unfold dispatch_post expected_observer_count
  rcases ha : append_path cfg.base_path suffix with e | u
  · simp only [ha]
  · simp only [ha]
    rcases build with b | b
    · rfl
    · rcases exec with e2 | resp
      · rfl
      · rcases resp with ⟨st, jr⟩
        rcases jr with e3 | body <;> rfl

/-- When URL resolution and request building succeed, the built request
of a GET dispatch carries exactly the headers of the claimed merge order
(trace context first, then user agent, then static headers). -/
theorem dispatch_get_requestHeaders {α ε β : Type} (cfg : Configuration) (trace : Headers)
    (exec : Except Unit (Response β)) (dS : β → Option α) (dE : β → Option ε)
    (suffix : String) (u : Url) (ha : append_path cfg.base_path suffix = .ok u) :
    (dispatch_get cfg trace (.ok ()) exec dS dE suffix).snd.requestHeaders
      = some (claimed_merge_order trace cfg.user_agent cfg.headers) := by
  unfold dispatch_get
  rw [ha]
  rcases exec with e | resp
  · rfl
  · rcases resp with ⟨st, jr⟩
    rcases jr with e | body <;> rfl

/-- When URL resolution and request building succeed, the built request
of a POST dispatch carries exactly the headers of the POST merge order
(user agent, then static headers, then content-type, then trace context
last). -/
theorem dispatch_post_requestHeaders {α ε β : Type} (cfg : Configuration) (trace : Headers)
    (exec : Except Unit (Response β)) (dS : β → Option α) (dE : β → Option ε)
    (suffix : String) (u : Url) (ha : append_path cfg.base_path suffix = .ok u) :
    (dispatch_post cfg trace (.ok ()) exec dS dE suffix).snd.requestHeaders
      = some (post_merge_order trace cfg.user_agent cfg.headers) := by
  unfold dispatch_post
  rw [ha]
  rcases exec with e | resp
  · rfl
  · rcases resp with ⟨st, jr⟩
    rcases jr with e | body <;> rfl

/-- When the exchange delivers a status and a JSON body, the outcome of a
GET dispatch is exactly what the shared classifier decides for them. -/
theorem dispatch_get_delivers {α ε β : Type} (cfg : Configuration) (trace : Headers)
    (dS : β → Option α) (dE : β → Option ε) (suffix : String) (u : Url)
    (st : Nat) (body : β) (ha : append_path cfg.base_path suffix = .ok u) :
    (dispatch_get cfg trace (.ok ()) (.ok ⟨st, .ok body⟩) dS dE suffix).fst
      = classify_response dS dE st body := by
  unfold dispatch_get
  rw [ha]
  rfl

/-- When the exchange delivers a status and a JSON body, the outcome of a
POST dispatch is exactly what the shared classifier decides for them. -/
theorem dispatch_post_delivers {α ε β : Type} (cfg : Configuration) (trace : Headers)
    (dS : β → Option α) (dE : β → Option ε) (suffix : String) (u : Url)
    (st : Nat) (body : β) (ha : append_path cfg.base_path suffix = .ok u) :
    (dispatch_post cfg trace (.ok ()) (.ok ⟨st, .ok body⟩) dS dE suffix).fst
      = classify_response dS dE st body := by
  unfold dispatch_post
  rw [ha]
  rfl

/-- A ConnectorError outcome of a GET dispatch carries a status in the
400 to 599 range, comes from a delivered response with that status, and
carries exactly the envelope the error decoder produced for its body. -/
theorem dispatch_get_connector {α ε β : Type} (cfg : Configuration) (trace : Headers)
    (build : Except Unit Unit) (exec : Except Unit (Response β))
    (dS : β → Option α) (dE : β → Option ε) (suffix : String) (st : Nat) (e : ε)
    (h : (dispatch_get cfg trace build exec dS dE suffix).fst
      = .error (.ConnectorError st e)) :
    (400 ≤ st ∧ st ≤ 599)
    ∧ ∃ resp body, exec = .ok resp ∧ resp.jsonResult = .ok body
        ∧ st = resp.status ∧ dE body = some e := by
  unfold dispatch_get at h
  rcases ha : append_path cfg.base_path suffix with e1 | u <;> rw [ha] at h
  · simp at h
  · rcases build with b | b
    · simp at h
    · rcases exec with e2 | resp
      · simp [with_traced_errors] at h
      · rcases resp with ⟨rst, jr⟩
        rcases jr with e3 | body
        · simp [with_traced_errors] at h
        · obtain ⟨hst, hrange, hdE⟩ :=
            classify_response_connector dS dE rst body st e
              (by simpa [with_traced_errors] using h)
          exact ⟨by rw [hst]; exact hrange, ⟨rst, .ok body⟩, body, rfl, rfl, hst, hdE⟩

/-- A ConnectorError outcome of a POST dispatch carries a status in the
400 to 599 range, comes from a delivered response with that status, and
carries exactly the envelope the error decoder produced for its body. -/
theorem dispatch_post_connector {α ε β : Type} (cfg : Configuration) (trace : Headers)
    (build : Except Unit Unit) (exec : Except Unit (Response β))
    (dS : β → Option α) (dE : β → Option ε) (suffix : String) (st : Nat) (e : ε)
    (h : (dispatch_post cfg trace build exec dS dE suffix).fst
      = .error (.ConnectorError st e)) :
    (400 ≤ st ∧ st ≤ 599)
    ∧ ∃ resp body, exec = .ok resp ∧ resp.jsonResult = .ok body
        ∧ st = resp.status ∧ dE body = some e := by
  unfold dispatch_post at h
  rcases ha : append_path cfg.base_path suffix with e1 | u <;> rw [ha] at h
  · simp at h
  · rcases build with b | b
    · simp at h
    · rcases exec with e2 | resp
      · simp [with_traced_errors] at h
      · rcases resp with ⟨rst, jr⟩
        rcases jr with e3 | body
        · simp [with_traced_errors] at h
        · obtain ⟨hst, hrange, hdE⟩ :=
            classify_response_connector dS dE rst body st e
              (by simpa [with_traced_errors] using h)
          exact ⟨by rw [hst]; exact hrange, ⟨rst, .ok body⟩, body, rfl, rfl, hst, hdE⟩

/-- Every pair of the static map and a user-agent entry are present in
the claimed (GET) merge order. -/
theorem claimed_merge_order_complete (t : Headers) (ua : Option String) (st : Headers) :
    (∀ p ∈ st, p ∈ claimed_merge_order t ua st)
    ∧ ∀ u, ua = some u → ∃ v, ("user-agent", v) ∈ claimed_merge_order t ua st := by
  constructor
  · intro p hp
    exact mem_replace_headers_new _ _ p hp
  · intro u hu
    subst hu
    unfold claimed_merge_order
    exact exists_key_replace_headers _ st "user-agent" u (by simp [header])

/-- Every pair of the static map and a user-agent entry are present in
the POST merge order. -/
theorem post_merge_order_complete (t : Headers) (ua : Option String) (st : Headers) :
    (∀ p ∈ st, p ∈ post_merge_order t ua st)
    ∧ ∀ u, ua = some u → ∃ v, ("user-agent", v) ∈ post_merge_order t ua st := by
  constructor
  · intro p hp
    unfold post_merge_order
    rw [inject_eq_append]
    exact List.mem_append_left _
      (mem_set_json_content_type _ _ (mem_replace_headers_new _ _ p hp))
  · intro u hu
    subst hu
    unfold post_merge_order
    obtain ⟨v, hv⟩ :=
      exists_key_replace_headers (header [] "user-agent" u) st "user-agent" u
        (by simp [header])
    refine ⟨v, ?_⟩
    rw [inject_eq_append]
    exact List.mem_append_left _ (mem_set_json_content_type _ _ hv)

/-- A GET dispatch that records built request headers records exactly the
claimed (GET) merge order. -/
theorem dispatch_get_requestHeaders_inv {α ε β : Type} (cfg : Configuration)
    (trace : Headers) (build : Except Unit Unit) (exec : Except Unit (Response β))
    (dS : β → Option α) (dE : β → Option ε) (suffix : String) (hs : Headers)
    (h : (dispatch_get cfg trace build exec dS dE suffix).snd.requestHeaders = some hs) :
    hs = claimed_merge_order trace cfg.user_agent cfg.headers := by
  unfold dispatch_get at h
  rcases ha : append_path cfg.base_path suffix with e | u <;> rw [ha] at h
  · simp at h
  · rcases build with b | b
    · simp at h
    · rcases exec with e2 | resp
      · simp [with_traced_errors] at h
        exact h.symm
      · rcases resp with ⟨rst, jr⟩
        rcases jr with e3 | bd
        · simp [with_traced_errors] at h
          exact h.symm
        · simp [with_traced_errors] at h
          exact h.symm

/-- A POST dispatch that records built request headers records exactly
the POST merge order. -/
theorem dispatch_post_requestHeaders_inv {α ε β : Type} (cfg : Configuration)
    (trace : Headers) (build : Except Unit Unit) (exec : Except Unit (Response β))
    (dS : β → Option α) (dE : β → Option ε) (suffix : String) (hs : Headers)
    (h : (dispatch_post cfg trace build exec dS dE suffix).snd.requestHeaders = some hs) :
    hs = post_merge_order trace cfg.user_agent cfg.headers := by
  unfold dispatch_post at h
  rcases ha : append_path cfg.base_path suffix with e | u <;> rw [ha] at h
  · simp at h
  · rcases build with b | b
    · simp at h
    · rcases exec with e2 | resp
      · simp [with_traced_errors] at h
        exact h.symm
      · rcases resp with ⟨rst, jr⟩
        rcases jr with e3 | bd
        · simp [with_traced_errors] at h
          exact h.symm
        · simp [with_traced_errors] at h
          exact h.symm

/-! Claim theorems. -/

/-- C1: for every status code in 100 to 599 the shared classifier yields
exactly one of success or connector error: 400 to 599 always takes the
connector-error path (a ConnectorError carrying that status and the
decoded envelope, or a distinct serde decode failure when the envelope
does not decode, never a success), and every other status takes the
success path (the decoded success value, or a distinct serde decode
failure, never a connector error); and whenever an exchange delivers a
status and a decoded JSON body, each of the five operations returns
exactly the classifier's outcome for them. -/
theorem classification_totality {α ε β : Type} (dS : β → Option α) (dE : β → Option ε)
    (s : Nat) (body : β) (hlo : 100 ≤ s) (hhi : s ≤ 599) :
    ((400 ≤ s →
        (∀ v, classify_response dS dE s body ≠ .ok v)
        ∧ (∀ e, dE body = some e →
            classify_response dS dE s body = .error (.ConnectorError s e))
        ∧ (dE body = none → classify_response dS dE s body = .error .Serde))
     ∧ (s < 400 →
        (∀ st e, classify_response dS dE s body ≠ .error (.ConnectorError st e))
        ∧ (∀ v, dS body = some v → classify_response dS dE s body = .ok v)
        ∧ (dS body = none → classify_response dS dE s body = .error .Serde)))
    ∧ ∀ (cfg : Configuration) (trace : Headers) (u : Url),
        (append_path cfg.base_path "capabilities" = .ok u →
          (capabilities_get cfg trace (.ok ()) (.ok ⟨s, .ok body⟩) dS dE).fst
            = classify_response dS dE s body)
        ∧ (append_path cfg.base_path "schema" = .ok u →
          (schema_get cfg trace (.ok ()) (.ok ⟨s, .ok body⟩) dS dE).fst
            = classify_response dS dE s body)
        ∧ (append_path cfg.base_path "query" = .ok u →
          (query_post cfg trace (.ok ()) (.ok ⟨s, .ok body⟩) dS dE).fst
            = classify_response dS dE s body)
        ∧ (append_path cfg.base_path "mutation" = .ok u →
          (mutation_post cfg trace (.ok ()) (.ok ⟨s, .ok body⟩) dS dE).fst
            = classify_response dS dE s body)
        ∧ (append_path cfg.base_path "explain" = .ok u →
          (explain_post cfg trace (.ok ()) (.ok ⟨s, .ok body⟩) dS dE).fst
            = classify_response dS dE s body) := by
  refine ⟨⟨?_, ?_⟩, ?_⟩
  · intro h4
    have hc : (!(is_client_error s) && !(is_server_error s)) = false := by
      by_cases h5 : s ≤ 499
      · have hcl : is_client_error s = true := by
          simp only [is_client_error, decide_eq_true_eq]
          omega
        simp [hcl]
      · have hsv : is_server_error s = true := by
          simp only [is_server_error, decide_eq_true_eq]
          omega
        simp [hsv]
    refine ⟨?_, ?_, ?_⟩
    · intro v hv
      unfold classify_response at hv
      rw [hc] at hv
      simp only [Bool.false_eq_true, if_false] at hv
      cases hdE : dE body <;> rw [hdE] at hv <;> simp at hv
    · intro e he
      unfold classify_response
      rw [hc, he]
      simp
    · intro he
      unfold classify_response
      rw [hc, he]
      simp
  · intro h4
    have hc : (!(is_client_error s) && !(is_server_error s)) = true := by
      have hcl : is_client_error s = false := by
        simp only [is_client_error, decide_eq_false_iff_not]
        omega
      have hsv : is_server_error s = false := by
        simp only [is_server_error, decide_eq_false_iff_not]
        omega
      simp [hcl, hsv]
    refine ⟨?_, ?_, ?_⟩
    · intro st e hv
      unfold classify_response at hv
      rw [hc] at hv
      simp only [if_true] at hv
      cases hdS : dS body <;> rw [hdS] at hv <;> simp at hv
    · intro v hv
      unfold classify_response
      rw [hc, hv]
      simp
    · intro hv
      unfold classify_response
      rw [hc, hv]
      simp
  · intro cfg trace u
    exact ⟨dispatch_get_delivers cfg trace dS dE "capabilities" u s body,
      dispatch_get_delivers cfg trace dS dE "schema" u s body,
      dispatch_post_delivers cfg trace dS dE "query" u s body,
      dispatch_post_delivers cfg trace dS dE "mutation" u s body,
      dispatch_post_delivers cfg trace dS dE "explain" u s body⟩

/-- Witness for C1: at status 404 a decodable body yields the connector
error carrying 404 and the envelope; at status 200 it yields success. -/
theorem classification_totality_witness :
    classify_response (some : Nat → Option Nat) (some : Nat → Option Nat) 404 7
      = .error (.ConnectorError 404 7)
    ∧ classify_response (some : Nat → Option Nat) (some : Nat → Option Nat) 200 7
      = .ok 7 := by
  constructor
  · exact ((classification_totality some some 404 7 (by decide) (by decide)).1.1
      (by decide)).2.1 7 rfl
  · exact ((classification_totality some some 200 7 (by decide) (by decide)).1.2
      (by decide)).2.1 7 rfl

/-- C2: URL joining is insensitive to a trailing slash on the base: for
any base whose last segment is nonempty (no trailing slash), joining a
suffix gives the same result as joining it after pushing an empty
segment (the base with a trailing slash), both being the base's segments
followed by the suffix; a root base (path "/", as parsed for both
http://host and http://host/) joins to just the suffix; in particular
every one of the spec's four example bases yields base/capabilities. -/
theorem append_path_trailing_slash_insensitive :
    (∀ (segs : List String) (S : String), segs.getLastD "" ≠ "" →
        append_path ⟨false, segs⟩ S = .ok ⟨false, segs ++ splitSlash S⟩
        ∧ append_path ⟨false, segs ++ [""]⟩ S = .ok ⟨false, segs ++ splitSlash S⟩)
    ∧ (∀ S : String, append_path ⟨false, [""]⟩ S = .ok ⟨false, splitSlash S⟩)
    ∧ append_path ⟨false, parse_path "/"⟩ "capabilities"
        = .ok ⟨false, parse_path "/capabilities"⟩
    ∧ append_path ⟨false, parse_path "/ndc"⟩ "capabilities"
        = .ok ⟨false, parse_path "/ndc/capabilities"⟩
    ∧ append_path ⟨false, parse_path "/ndc/"⟩ "capabilities"
        = .ok ⟨false, parse_path "/ndc/capabilities"⟩ := by
  refine ⟨?_, ?_, by decide, by decide, by decide⟩
  · intro segs S h
    have hb : ¬(segs.getLast?.getD "" = "") := by
      simpa [List.getLastD_eq_getLast?] using h
    constructor
    · simp [append_path, path_segments, url_join, hb, List.dropLast_concat]
    · have hb2 : ((segs ++ [""]).getLastD "" != "") = false := by
        simp [List.getLastD_eq_getLast?, List.getLast?_concat]
      simp [append_path, path_segments, url_join, hb2, List.dropLast_concat]
  · intro S
    simp [append_path, path_segments, url_join]

/-- Witness for C2 at the base with path /ndc (with and without trailing
slash) and the suffix capabilities. -/
theorem append_path_trailing_slash_insensitive_witness :
    append_path ⟨false, ["ndc"]⟩ "capabilities" = .ok ⟨false, ["ndc", "capabilities"]⟩
    ∧ append_path ⟨false, ["ndc", ""]⟩ "capabilities"
        = .ok ⟨false, ["ndc", "capabilities"]⟩ := by
  have h := append_path_trailing_slash_insensitive.1 ["ndc"] "capabilities" (by decide)
  have hs : splitSlash "capabilities" = ["capabilities"] := by decide
  rw [hs] at h
  simpa using h

/-- C3 counterexample: the claimed merge order (trace context first,
user agent, then static headers last) does not hold for every operation.
On query_post with a trace header and a colliding static header, the
built request keeps both entries with the trace pair appended last,
whereas the claimed order would let the static map replace the trace
pair; the recorded headers differ from the claimed merge order. -/
theorem merge_order_counterexample :
    (query_post ⟨⟨false, [""]⟩, none, [("traceparent", "s")]⟩ [("traceparent", "t")]
        (.ok ()) (.ok ⟨200, .ok 0⟩) (some : Nat → Option Nat)
        (some : Nat → Option Nat)).snd.requestHeaders
      = some [("traceparent", "s"), ("content-type", "application/json"),
          ("traceparent", "t")]
    ∧ claimed_merge_order [("traceparent", "t")] none [("traceparent", "s")]
      = [("traceparent", "s")]
    ∧ (query_post ⟨⟨false, [""]⟩, none, [("traceparent", "s")]⟩ [("traceparent", "t")]
        (.ok ()) (.ok ⟨200, .ok 0⟩) (some : Nat → Option Nat)
        (some : Nat → Option Nat)).snd.requestHeaders
      ≠ some (claimed_merge_order [("traceparent", "t")] none [("traceparent", "s")]) := by
  refine ⟨by decide, by decide, by decide⟩

/-- C3 amended: the GET operations (capabilities, schema) merge
trace-context headers first, then the user agent, then the static
headers last; the POST operations (query, mutation, explain) merge the
user agent first, then the static headers, then content-type, and the
trace-context headers last; header additions append without removing
existing entries, while the static-header merge replaces colliding
names. -/
theorem merge_order_by_method {α ε β : Type} (cfg : Configuration) (trace : Headers)
    (exec : Except Unit (Response β)) (dS : β → Option α) (dE : β → Option ε)
    (hbase : cfg.base_path.cannotBeABase = false) :
    ((capabilities_get cfg trace (.ok ()) exec dS dE).snd.requestHeaders
        = some (claimed_merge_order trace cfg.user_agent cfg.headers))
    ∧ ((schema_get cfg trace (.ok ()) exec dS dE).snd.requestHeaders
        = some (claimed_merge_order trace cfg.user_agent cfg.headers))
    ∧ ((query_post cfg trace (.ok ()) exec dS dE).snd.requestHeaders
        = some (post_merge_order trace cfg.user_agent cfg.headers))
    ∧ ((mutation_post cfg trace (.ok ()) exec dS dE).snd.requestHeaders
        = some (post_merge_order trace cfg.user_agent cfg.headers))
    ∧ ((explain_post cfg trace (.ok ()) exec dS dE).snd.requestHeaders
        = some (post_merge_order trace cfg.user_agent cfg.headers)) := by
  obtain ⟨u1, h1⟩ := append_path_ok_of_base cfg.base_path "capabilities" hbase
  obtain ⟨u2, h2⟩ := append_path_ok_of_base cfg.base_path "schema" hbase
  obtain ⟨u3, h3⟩ := append_path_ok_of_base cfg.base_path "query" hbase
  obtain ⟨u4, h4⟩ := append_path_ok_of_base cfg.base_path "mutation" hbase
  obtain ⟨u5, h5⟩ := append_path_ok_of_base cfg.base_path "explain" hbase
  exact ⟨dispatch_get_requestHeaders cfg trace exec dS dE "capabilities" u1 h1,
    dispatch_get_requestHeaders cfg trace exec dS dE "schema" u2 h2,
    dispatch_post_requestHeaders cfg trace exec dS dE "query" u3 h3,
    dispatch_post_requestHeaders cfg trace exec dS dE "mutation" u4 h4,
    dispatch_post_requestHeaders cfg trace exec dS dE "explain" u5 h5⟩

/-- Witness for the amended C3 at a concrete configuration. -/
theorem merge_order_by_method_witness :
    (capabilities_get ⟨⟨false, [""]⟩, none, [("x", "y")]⟩ [("t", "v")] (.ok ())
        (.error () : Except Unit (Response Nat)) some some).snd.requestHeaders
      = some (claimed_merge_order [("t", "v")] none [("x", "y")]) :=
  (merge_order_by_method ⟨⟨false, [""]⟩, none, [("x", "y")]⟩ [("t", "v")]
    (.error ()) (some : Nat → Option Nat) (some : Nat → Option Nat) rfl).1

/-- C4 counterexample: an endpoint-resolution failure propagates to the
caller with zero error-observer invocations, so not every failure kind is
reported exactly once. -/
theorem observer_missing_on_url_error :
    (capabilities_get ⟨⟨true, []⟩, none, []⟩ [] (.ok ())
        (.error () : Except Unit (Response Nat)) (some : Nat → Option Nat)
        (some : Nat → Option Nat))
      = (.error (.ConnectorURLError .URLParseError), ⟨0, 0, none⟩) := by
  decide

/-- C4 amended: for every operation, the error observer fires exactly
once for a transport-execute failure and exactly once for a JSON
body-read failure, and zero times otherwise — in particular
endpoint-resolution failures, request-build failures, body-schema
mismatches and connector errors propagate with no observer invocation;
the observer never fires more than once per call. -/
theorem observer_count_characterization {α ε β : Type} (cfg : Configuration)
    (trace : Headers) (build : Except Unit Unit) (exec : Except Unit (Response β))
    (dS : β → Option α) (dE : β → Option ε) :
    ((capabilities_get cfg trace build exec dS dE).snd.observerCount
        = expected_observer_count cfg.base_path "capabilities" build exec)
    ∧ ((schema_get cfg trace build exec dS dE).snd.observerCount
        = expected_observer_count cfg.base_path "schema" build exec)
    ∧ ((query_post cfg trace build exec dS dE).snd.observerCount
        = expected_observer_count cfg.base_path "query" build exec)
    ∧ ((mutation_post cfg trace build exec dS dE).snd.observerCount
        = expected_observer_count cfg.base_path "mutation" build exec)
    ∧ ((explain_post cfg trace build exec dS dE).snd.observerCount
        = expected_observer_count cfg.base_path "explain" build exec)
    ∧ ∀ (u : Url) (suffix : String),
        expected_observer_count u suffix build exec ≤ 1 := by
  refine ⟨dispatch_get_observer cfg trace build exec dS dE "capabilities",
    dispatch_get_observer cfg trace build exec dS dE "schema",
    dispatch_post_observer cfg trace build exec dS dE "query",
    dispatch_post_observer cfg trace build exec dS dE "mutation",
    dispatch_post_observer cfg trace build exec dS dE "explain", ?_⟩
  intro u suffix
  unfold expected_observer_count
  rcases append_path u suffix with e | v
  · exact Nat.zero_le 1
  · rcases build with b | b
    · exact Nat.zero_le 1
    · rcases exec with e2 | resp
      · exact Nat.le_refl 1
      · rcases resp with ⟨rst, jr⟩
        rcases jr with e3 | bd
        · exact Nat.le_refl 1
        · exact Nat.zero_le 1

/-- C5: the error observer is pass-through instrumentation: on any
Result value it returns exactly its input — an Ok stays the same Ok and
an Err keeps the identical discriminant and payload; only the span
effect (the counter) changes. -/
theorem with_traced_errors_preserves_result {A E : Type} (r : Except E A) (n : Nat) :
    (with_traced_errors r n).fst = r := by
  cases r <;> rfl

/-- C6: when URL joining fails for an operation's path suffix, the call
returns the endpoint-resolution error immediately, with zero transport
invocations, zero observer invocations and no built request. -/
theorem no_execute_on_url_error {α ε β : Type} (cfg : Configuration) (trace : Headers)
    (build : Except Unit Unit) (exec : Except Unit (Response β))
    (dS : β → Option α) (dE : β → Option ε) (e : ConnectorURLError) :
    (append_path cfg.base_path "capabilities" = .error e →
        capabilities_get cfg trace build exec dS dE
          = (.error (.ConnectorURLError e), ⟨0, 0, none⟩))
    ∧ (append_path cfg.base_path "schema" = .error e →
        schema_get cfg trace build exec dS dE
          = (.error (.ConnectorURLError e), ⟨0, 0, none⟩))
    ∧ (append_path cfg.base_path "query" = .error e →
        query_post cfg trace build exec dS dE
          = (.error (.ConnectorURLError e), ⟨0, 0, none⟩))
    ∧ (append_path cfg.base_path "mutation" = .error e →
        mutation_post cfg trace build exec dS dE
          = (.error (.ConnectorURLError e), ⟨0, 0, none⟩))
    ∧ (append_path cfg.base_path "explain" = .error e →
        explain_post cfg trace build exec dS dE
          = (.error (.ConnectorURLError e), ⟨0, 0, none⟩)) :=
  ⟨dispatch_get_url_error cfg trace build exec dS dE "capabilities" e,
   dispatch_get_url_error cfg trace build exec dS dE "schema" e,
   dispatch_post_url_error cfg trace build exec dS dE "query" e,
   dispatch_post_url_error cfg trace build exec dS dE "mutation" e,
   dispatch_post_url_error cfg trace build exec dS dE "explain" e⟩

/-- Witness for C6: a base URL that cannot be a base short-circuits
capabilities_get with no transport invocation. -/
theorem no_execute_on_url_error_witness :
    capabilities_get ⟨⟨true, []⟩, some "ua", [("a", "b")]⟩ [("t", "v")] (.ok ())
        (.ok ⟨200, .ok 0⟩ : Except Unit (Response Nat)) (some : Nat → Option Nat)
        (some : Nat → Option Nat)
      = (.error (.ConnectorURLError .URLParseError), ⟨0, 0, none⟩) :=
  (no_execute_on_url_error ⟨⟨true, []⟩, some "ua", [("a", "b")]⟩ [("t", "v")] (.ok ())
    (.ok ⟨200, .ok 0⟩) (some : Nat → Option Nat) (some : Nat → Option Nat)
    .URLParseError).1 (by decide)

/-- C7: whenever an operation builds an outgoing request, its final
headers contain every caller-configured static header pair, and contain
a user-agent entry whenever a user agent is configured — for any trace
context, including none. -/
theorem header_merge_completeness {α ε β : Type} (cfg : Configuration) (trace : Headers)
    (build : Except Unit Unit) (exec : Except Unit (Response β))
    (dS : β → Option α) (dE : β → Option ε) (hs : Headers) :
    ((capabilities_get cfg trace build exec dS dE).snd.requestHeaders = some hs →
        (∀ p ∈ cfg.headers, p ∈ hs)
        ∧ ∀ u, cfg.user_agent = some u → ∃ v, ("user-agent", v) ∈ hs)
    ∧ ((schema_get cfg trace build exec dS dE).snd.requestHeaders = some hs →
        (∀ p ∈ cfg.headers, p ∈ hs)
        ∧ ∀ u, cfg.user_agent = some u → ∃ v, ("user-agent", v) ∈ hs)
    ∧ ((query_post cfg trace build exec dS dE).snd.requestHeaders = some hs →
        (∀ p ∈ cfg.headers, p ∈ hs)
        ∧ ∀ u, cfg.user_agent = some u → ∃ v, ("user-agent", v) ∈ hs)
    ∧ ((mutation_post cfg trace build exec dS dE).snd.requestHeaders = some hs →
        (∀ p ∈ cfg.headers, p ∈ hs)
        ∧ ∀ u, cfg.user_agent = some u → ∃ v, ("user-agent", v) ∈ hs)
    ∧ ((explain_post cfg trace build exec dS dE).snd.requestHeaders = some hs →
        (∀ p ∈ cfg.headers, p ∈ hs)
        ∧ ∀ u, cfg.user_agent = some u → ∃ v, ("user-agent", v) ∈ hs) := by
  refine ⟨fun h => ?_, fun h => ?_, fun h => ?_, fun h => ?_, fun h => ?_⟩
  · rw [dispatch_get_requestHeaders_inv cfg trace build exec dS dE "capabilities" hs h]
    exact claimed_merge_order_complete trace cfg.user_agent cfg.headers
  · rw [dispatch_get_requestHeaders_inv cfg trace build exec dS dE "schema" hs h]
    exact claimed_merge_order_complete trace cfg.user_agent cfg.headers
  · rw [dispatch_post_requestHeaders_inv cfg trace build exec dS dE "query" hs h]
    exact post_merge_order_complete trace cfg.user_agent cfg.headers
  · rw [dispatch_post_requestHeaders_inv cfg trace build exec dS dE "mutation" hs h]
    exact post_merge_order_complete trace cfg.user_agent cfg.headers
  · rw [dispatch_post_requestHeaders_inv cfg trace build exec dS dE "explain" hs h]
    exact post_merge_order_complete trace cfg.user_agent cfg.headers

/-- Witness for C7: with a configured user agent and one static header,
a built capabilities_get request contains both. -/
theorem header_merge_completeness_witness :
    ("x", "y") ∈ ([("user-agent", "ua1"), ("x", "y")] : Headers)
    ∧ ∃ v, ("user-agent", v) ∈ ([("user-agent", "ua1"), ("x", "y")] : Headers) := by
  have h := (header_merge_completeness ⟨⟨false, [""]⟩, some "ua1", [("x", "y")]⟩ []
    (.ok ()) (.error () : Except Unit (Response Nat)) some some
    [("user-agent", "ua1"), ("x", "y")]).1 (by decide)
  exact ⟨h.1 ("x", "y") (by decide), h.2 "ua1" rfl⟩

/-- C8: the trace-context injector is total and silent in the absence of
a trace context: it always returns the builder with exactly the
propagator's pairs appended, so an empty mapping (no active context)
returns the builder unchanged. -/
theorem inject_trace_context_no_active_context (t b : Headers) :
    inject_trace_context t b = b ++ t ∧ inject_trace_context [] b = b :=
  ⟨inject_eq_append t b, by simpa using inject_eq_append [] b⟩

/-- C9: a ConnectorError returned by any of the five operations carries
a status in the 400 to 599 range, equal to the delivered response's
status, and its envelope is exactly what the error decoder produced for
the delivered body — so a ConnectorError arises only on the error branch
and only when the envelope decoded successfully. -/
theorem connector_error_status_range {α ε β : Type} (cfg : Configuration)
    (trace : Headers) (build : Except Unit Unit) (exec : Except Unit (Response β))
    (dS : β → Option α) (dE : β → Option ε) (st : Nat) (e : ε) :
    ((capabilities_get cfg trace build exec dS dE).fst
        = .error (.ConnectorError st e) →
        (400 ≤ st ∧ st ≤ 599)
        ∧ ∃ resp body, exec = .ok resp ∧ resp.jsonResult = .ok body
            ∧ st = resp.status ∧ dE body = some e)
    ∧ ((schema_get cfg trace build exec dS dE).fst
        = .error (.ConnectorError st e) →
        (400 ≤ st ∧ st ≤ 599)
        ∧ ∃ resp body, exec = .ok resp ∧ resp.jsonResult = .ok body
            ∧ st = resp.status ∧ dE body = some e)
    ∧ ((query_post cfg trace build exec dS dE).fst
        = .error (.ConnectorError st e) →
        (400 ≤ st ∧ st ≤ 599)
        ∧ ∃ resp body, exec = .ok resp ∧ resp.jsonResult = .ok body
            ∧ st = resp.status ∧ dE body = some e)
    ∧ ((mutation_post cfg trace build exec dS dE).fst
        = .error (.ConnectorError st e) →
        (400 ≤ st ∧ st ≤ 599)
        ∧ ∃ resp body, exec = .ok resp ∧ resp.jsonResult = .ok body
            ∧ st = resp.status ∧ dE body = some e)
    ∧ ((explain_post cfg trace build exec dS dE).fst
        = .error (.ConnectorError st e) →
        (400 ≤ st ∧ st ≤ 599)
        ∧ ∃ resp body, exec = .ok resp ∧ resp.jsonResult = .ok body
            ∧ st = resp.status ∧ dE body = some e) :=
  ⟨dispatch_get_connector cfg trace build exec dS dE "capabilities" st e,
   dispatch_get_connector cfg trace build exec dS dE "schema" st e,
   dispatch_post_connector cfg trace build exec dS dE "query" st e,
   dispatch_post_connector cfg trace build exec dS dE "mutation" st e,
   dispatch_post_connector cfg trace build exec dS dE "explain" st e⟩

/-- Witness for C9: a delivered 404 response whose body decodes as the
envelope 7 satisfies the range and provenance conclusion. -/
theorem connector_error_status_range_witness :
    (400 ≤ 404 ∧ 404 ≤ 599)
    ∧ ∃ (resp : Response Nat) (body : Nat),
        (Except.ok ⟨404, Except.ok 7⟩ : Except Unit (Response Nat)) = .ok resp
        ∧ resp.jsonResult = .ok body ∧ 404 = resp.status ∧ some body = some 7 :=
  (connector_error_status_range ⟨⟨false, [""]⟩, none, []⟩ [] (.ok ())
    (.ok ⟨404, .ok 7⟩) (some : Nat → Option Nat) (some : Nat → Option Nat) 404 7).1
    (by decide)

/-- C10: injecting the trace context only adds headers: every pair
already on the builder is still present afterwards, whatever the ambient
trace context contains. -/
theorem inject_trace_context_preserves_headers (t b : Headers) (p : String × String)
    (h : p ∈ b) : p ∈ inject_trace_context t b := by
  rw [inject_eq_append]
  exact List.mem_append_left t h

/-- Witness for C10 at a one-pair builder and a one-pair context. -/
theorem inject_trace_context_preserves_headers_witness :
    ("a", "b") ∈ inject_trace_context [("t", "v")] [("a", "b")] :=
  inject_trace_context_preserves_headers [("t", "v")] [("a", "b")] ("a", "b")
    (by decide)

end NdcClient
